import Mathlib

/-!
# FinanzQuest — verification of the depot administration layer

Shallow embedding of `src/dbinit/admin.sql` (the authoritative source for the
claims below): the role table and role-check functions, the teacher
grant/revoke procedures, the reward grant, the budget upsert, and the three
read-side overview queries.  SQL tables become Lean lists of row structures,
UUIDs become `Nat`, the caller context (`auth.uid()` plus
`current_user = 'postgres'`) becomes an explicit `Caller` record, and fallible
stored procedures become `Except DbError` functions.  SQL `NULL` in aggregate
results becomes `Option`.
-/

namespace FinanzQuest

/-- `users.special_role` enum from admin.sql. -/
inductive SpecialRole where
  | admin
  | teacher
deriving DecidableEq, Repr

/-- A row of `auth.users` (the external auth record).  Only the columns the
admin layer reads or writes are modelled: the id and the coarse elevated flag
`is_super_admin` that `grant_teacher` / `revoke_teacher` write. -/
structure AuthUser where
  id : Nat
  is_super_admin : Bool
deriving DecidableEq, Repr

/-- A row of `users.special_roles`: `(user_id, user_role, granted_at)` with
primary key `(user_id, user_role)`. -/
structure RoleRow where
  user_id : Nat
  user_role : SpecialRole
  granted_at : Nat
deriving DecidableEq, Repr

/-- A row of `depots.depots` as read by admin.sql: id, cash, cash_start and
the owning user-id array `users`. -/
structure Depot where
  id : Nat
  cash : Int
  cash_start : Int
  users : List Nat
deriving DecidableEq, Repr

/-- A row of `depots.positions`; admin.sql only reads `id` and `depot_id`. -/
structure Position where
  id : Nat
  depot_id : Nat
deriving DecidableEq, Repr

/-- A row of `depots.transactions` (the ledger); admin.sql reads `id` and
`depot_id`; `cash_delta` is the cash effect the ledger records for the row. -/
structure Transaction where
  id : Nat
  depot_id : Nat
  cash_delta : Int
deriving DecidableEq, Repr

/-- Savings-plan frequency (`period` column of `depots.savings_plans`). -/
inductive Frequency where
  | weekly
  | biweekly
  | monthly
  | quarterly
  | yearly
deriving DecidableEq, Repr

/-- A row of `depots.savings_plans`; the budget overview reads `depot_id`,
`worth` and `period`. -/
structure SavingsPlan where
  id : Nat
  depot_id : Nat
  worth : ℚ
  period : Frequency
deriving DecidableEq, Repr

/-- A row of `depots.savings_plans_budget`: primary key `depot_id`. -/
structure BudgetRow where
  depot_id : Nat
  budget : Int
  last_changed : Nat
deriving DecidableEq, Repr

/-- The database state the admin layer touches. -/
structure DB where
  auth_users : List AuthUser
  special_roles : List RoleRow
  depots : List Depot
  positions : List Position
  transactions : List Transaction
  savings_plans : List SavingsPlan
  savings_plans_budget : List BudgetRow
deriving DecidableEq, Repr

/-- The caller context of a stored-procedure invocation: `auth.uid()` (none
for an unauthenticated caller) and whether `current_user = 'postgres'` (the
bootstrap principal). -/
structure Caller where
  uid : Option Nat
  is_postgres : Bool
deriving DecidableEq, Repr

/-- Error kinds surfaced by the stored procedures.  `unauthorized` is the
`ERRCODE '42501'` exception; `duplicate_key` is a primary-key violation on a
plain `INSERT`; `rls_denied` is a row-level-security write rejection (also
SQLSTATE 42501 in PostgreSQL, kept separate only to record its origin). -/
inductive DbError where
  | unauthorized
  | duplicate_key
  | rls_denied
deriving DecidableEq, Repr

/-- `users.has_role(required_role)`: false for an unauthenticated caller,
otherwise an EXISTS over `users.special_roles` for the caller's uid. -/
def has_role (db : DB) (c : Caller) (required_role : SpecialRole) : Bool :=
  match c.uid with
  | none => false
  | some u =>
      db.special_roles.any fun row =>
        row.user_id = u && row.user_role = required_role

/-- `users.has_any_role(VARIADIC required_roles)`: false for an
unauthenticated caller, otherwise an EXISTS with `user_role = ANY(...)`. -/
def has_any_role (db : DB) (c : Caller) (required_roles : List SpecialRole) : Bool :=
  match c.uid with
  | none => false
  | some u =>
      db.special_roles.any fun row =>
        row.user_id = u && required_roles.contains row.user_role

/-- The authorization gate shared by the privileged procedures in admin.sql:
`users.has_any_role(...) OR current_user = 'postgres'`. -/
def gate (db : DB) (c : Caller) (roles : List SpecialRole) : Bool :=
  has_any_role db c roles || c.is_postgres

/-- `users.grant_teacher(p_user_id)`: requires admin/teacher (or postgres),
inserts a `(p_user_id, 'teacher')` role row (plain INSERT, so a duplicate
primary key errors), then runs `UPDATE auth.users SET is_super_admin = true`
— the UPDATE has no WHERE clause in the source, so it is applied to every
auth record. -/
def grant_teacher (db : DB) (c : Caller) (p_user_id : Nat) (now : Nat) :
    Except DbError DB :=
  if !(gate db c [.admin, .teacher]) then
    .error .unauthorized
  else if db.special_roles.any fun r =>
      r.user_id = p_user_id && r.user_role = SpecialRole.teacher then
    .error .duplicate_key
  else
    .ok { db with
      special_roles := db.special_roles ++ [⟨p_user_id, .teacher, now⟩],
      auth_users := db.auth_users.map fun u => { u with is_super_admin := true } }

/-- `users.revoke_teacher(p_user_id)`: requires admin/teacher (or postgres),
deletes the target's teacher role row and runs
`UPDATE auth.users SET is_super_admin = false WHERE id = p_user_id`. -/
def revoke_teacher (db : DB) (c : Caller) (p_user_id : Nat) :
    Except DbError DB :=
  if !(gate db c [.admin, .teacher]) then
    .error .unauthorized
  else
    .ok { db with
      special_roles := db.special_roles.filter fun r =>
        !(r.user_id = p_user_id && r.user_role = SpecialRole.teacher),
      auth_users := db.auth_users.map fun u =>
        if u.id = p_user_id then { u with is_super_admin := false } else u }

/-- `depots.grant_reward(p_depot_id, p_amount)`: the gate checks only
`users.has_any_role('teacher')` (or postgres), then adds `p_amount` to the
matching depot's cash.  No row is written to `depots.transactions`. -/
def grant_reward (db : DB) (c : Caller) (p_depot_id : Nat) (p_amount : Int) :
    Except DbError DB :=
  if !(gate db c [.teacher]) then
    .error .unauthorized
  else
    .ok { db with
      depots := db.depots.map fun d =>
        if d.id = p_depot_id then { d with cash := d.cash + p_amount } else d }

/-- `depots.change_budget(p_depot_id, p_budget)`: an upsert
(`INSERT ... ON CONFLICT (depot_id) DO UPDATE`) on
`depots.savings_plans_budget`.  The function body has no role check and the
function is not SECURITY DEFINER, so row-level security applies with the
caller's identity: the INSERT policy "Teachers can grant budget" and the
UPDATE policy "Teachers can update all budgets" both require
`users.has_role('teacher')`, and the table owner (postgres) bypasses RLS. -/
def change_budget (db : DB) (c : Caller) (p_depot_id : Nat) (p_budget : Int)
    (now : Nat) : Except DbError DB :=
  if has_role db c .teacher || c.is_postgres then
    .ok { db with
      savings_plans_budget :=
        if db.savings_plans_budget.any fun b => b.depot_id = p_depot_id then
          db.savings_plans_budget.map fun b =>
            if b.depot_id = p_depot_id then
              { b with budget := p_budget, last_changed := now }
            else b
        else
          db.savings_plans_budget ++ [⟨p_depot_id, p_budget, now⟩] }
  else
    .error .rls_denied

/-- SQL `LEFT JOIN` match list: the matching right-hand rows, or a single
NULL row when there is none. -/
def leftJoin {α : Type} (matching : List α) : List (Option α) :=
  if matching.isEmpty then [none] else matching.map some

/-- `COUNT(DISTINCT x)` over a column of join rows: NULLs are ignored and
duplicates collapse. -/
def countDistinct (xs : List (Option Nat)) : Nat :=
  (xs.filterMap id).toFinset.card

/-- Insertion of a value into a `≤`-sorted `Nat` list. -/
def insertSorted (x : Nat) : List Nat → List Nat
  | [] => [x]
  | y :: ys => if x ≤ y then x :: y :: ys else y :: insertSorted x ys

/-- `ORDER BY` of a `Nat` column (insertion sort). -/
def sortNat (xs : List Nat) : List Nat :=
  xs.foldr insertSorted []

/-- A result row of `users.get_admin_overview()`.  The textual projections of
`auth.users` (email, meta data, name, banned_until) are carried by the source
row unmodified and are not modelled; the role arrays and the three
COUNT(DISTINCT ...) aggregates are. -/
structure AdminOverviewRow where
  id : Nat
  user_roles : Option (List SpecialRole)
  depot_count : Nat
  position_count : Nat
  transaction_count : Nat
deriving DecidableEq, Repr

/-- The join rows `(d, p, t)` that `users.get_admin_overview()` produces for
one auth user: `auth.users LEFT JOIN depots.depots d ON au.id = ANY(d.users)
LEFT JOIN depots.positions p ON d.id = p.depot_id LEFT JOIN
depots.transactions t ON d.id = t.depot_id`.  Both inner joins key on `d`, so
a NULL depot yields NULL position and transaction columns. -/
def adminJoinRows (db : DB) (uid : Nat) :
    List (Option Depot × Option Position × Option Transaction) :=
  (leftJoin (db.depots.filter fun d => d.users.contains uid)).flatMap fun od =>
    match od with
    | none => [(none, none, none)]
    | some d =>
        (leftJoin (db.positions.filter fun p => p.depot_id = d.id)).flatMap
          fun op =>
            (leftJoin (db.transactions.filter fun t => t.depot_id = d.id)).map
              fun ot => (some d, op, ot)

/-- Insertion of a role row into a list sorted by `granted_at`. -/
def insertByGrant (r : RoleRow) : List RoleRow → List RoleRow
  | [] => [r]
  | x :: xs =>
      if r.granted_at ≤ x.granted_at then r :: x :: xs
      else x :: insertByGrant r xs

/-- `ORDER BY granted_at` (insertion sort). -/
def sortByGrant (l : List RoleRow) : List RoleRow :=
  l.foldr insertByGrant []

/-- The role-array lateral subquery of `users.get_admin_overview()`:
`array_agg(user_role ORDER BY granted_at)` over the user's role rows, NULL
when the user has none. -/
def rolesAgg (db : DB) (uid : Nat) : Option (List SpecialRole) :=
  let rows := db.special_roles.filter fun r => r.user_id = uid
  if rows.isEmpty then none
  else some ((sortByGrant rows).map fun r => r.user_role)

/-- `users.get_admin_overview()`: gate on admin/teacher (or postgres), then
one row per auth user (GROUP BY the `auth.users` primary key) with
`COUNT(DISTINCT d.id)`, `COUNT(DISTINCT p.id)`, `COUNT(DISTINCT t.id)` over
the join rows. -/
def get_admin_overview (db : DB) (c : Caller) :
    Except DbError (List AdminOverviewRow) :=
  if !(gate db c [.admin, .teacher]) then
    .error .unauthorized
  else
    .ok <| db.auth_users.map fun au =>
      let rows := adminJoinRows db au.id
      { id := au.id
        user_roles := rolesAgg db au.id
        depot_count := countDistinct (rows.map fun r => r.1.map Depot.id)
        position_count := countDistinct (rows.map fun r => r.2.1.map Position.id)
        transaction_count := countDistinct (rows.map fun r => r.2.2.map Transaction.id) }

/-- A result row of `depots.get_depot_overview()`.  `user_names` is the name
projection of the same profile rows as `user_ids` and is not modelled
separately. -/
structure DepotOverviewRow where
  id : Nat
  cash : Int
  cash_start : Int
  transaction_count : Nat
  position_count : Nat
  user_ids : List Nat
  all_ids : List Nat
  monthly_budget : Option Int
deriving DecidableEq, Repr

/-- The join rows `(t, p)` that `depots.get_depot_overview()` produces for one
depot: `depots.depots d LEFT JOIN depots.transactions dt ON dt.depot_id = d.id
LEFT JOIN depots.positions dp ON dp.depot_id = d.id`. -/
def depotJoinRows (db : DB) (depot_id : Nat) :
    List (Option Transaction × Option Position) :=
  (leftJoin (db.transactions.filter fun t => t.depot_id = depot_id)).flatMap
    fun ot =>
      (leftJoin (db.positions.filter fun p => p.depot_id = depot_id)).map
        fun op => (ot, op)

/-- `depots.get_depot_overview()`: gate on admin/teacher (or postgres), then
one row per depot (GROUP BY `d.id` and the lateral/budget columns;
`depot_id` is the primary key of `depots.savings_plans_budget`, so the budget
join adds at most one row) with `COUNT(DISTINCT dt.id)` and
`COUNT(DISTINCT dp.id)` over the join rows, the member-profile id array
`array_agg(user_id ORDER BY user_id)`, the raw `d.users` array, and the
joined budget. -/
def get_depot_overview (db : DB) (c : Caller) :
    Except DbError (List DepotOverviewRow) :=
  if !(gate db c [.admin, .teacher]) then
    .error .unauthorized
  else
    .ok <| db.depots.map fun d =>
      let rows := depotJoinRows db d.id
      { id := d.id
        cash := d.cash
        cash_start := d.cash_start
        transaction_count := countDistinct (rows.map fun r => r.1.map Transaction.id)
        position_count := countDistinct (rows.map fun r => r.2.map Position.id)
        user_ids := sortNat ((db.auth_users.filter fun au =>
          d.users.contains au.id).map AuthUser.id)
        all_ids := d.users
        monthly_budget := (db.savings_plans_budget.find? fun b =>
          b.depot_id = d.id).map BudgetRow.budget }

/-- Modelled from the spec: `depots.sp_to_per_month(period)` is referenced by
the `savings_plans_budget_overview` view but its definition is not part of
the sources; the spec fixes the frequency→per-month normalization factors as
weekly×4.345, biweekly×2.17, monthly×1, quarterly×(1/3), yearly×(1/12). -/
def sp_to_per_month : Frequency → ℚ
  | .weekly => 4345 / 1000
  | .biweekly => 217 / 100
  | .monthly => 1
  | .quarterly => 1 / 3
  | .yearly => 1 / 12

/-- SQL `SUM` over a group of an outer join: NULL (none) when the group holds
no non-NULL value — in this view, when the depot has no savings plan — and
the rational sum otherwise. -/
def sqlSum (xs : List ℚ) : Option ℚ :=
  if xs.isEmpty then none else some xs.sum

/-- A row of the `depots.savings_plans_budget_overview` view. -/
structure BudgetOverviewRow where
  budget : Int
  depot_id : Nat
  last_changed : Nat
  monthly_expenses : Option ℚ
  remaining_budget : Option ℚ
deriving DecidableEq, Repr

/-- `depots.savings_plans_budget_overview`: one row per budget row (the
GROUP BY columns are the budget row's columns and `depot_id` is its primary
key), `SUM(worth * sp_to_per_month(period))` over the depot's savings plans
via a LEFT JOIN (NULL when there is none), and
`budget - SUM(...)` — NULL propagates through the subtraction. -/
def savings_plans_budget_overview (db : DB) : List BudgetOverviewRow :=
  db.savings_plans_budget.map fun b =>
    let expenses := sqlSum
      (((db.savings_plans.filter fun p => p.depot_id = b.depot_id)).map
        fun p => p.worth * sp_to_per_month p.period)
    { budget := b.budget
      depot_id := b.depot_id
      last_changed := b.last_changed
      monthly_expenses := expenses
      remaining_budget := expenses.map fun s => (b.budget : ℚ) - s }

/-- The sum of the ledger cash deltas recorded for a depot. -/
def ledger_sum (db : DB) (depot_id : Nat) : Int :=
  ((db.transactions.filter fun t => t.depot_id = depot_id).map
    Transaction.cash_delta).sum

/-- The spec's cash invariant: every depot's cash equals `cash_start` plus
the sum of its ledger cash deltas. -/
def cash_invariant (db : DB) : Prop :=
  ∀ d ∈ db.depots, d.cash = d.cash_start + ledger_sum db d.id

instance (db : DB) : Decidable (cash_invariant db) :=
  inferInstanceAs (Decidable (∀ d ∈ db.depots, _))

/-! ## Authorization-gate lemmas -/

lemma has_any_role_iff (db : DB) (c : Caller) (roles : List SpecialRole) :
    has_any_role db c roles = true ↔ ∃ r ∈ roles, has_role db c r = true := by
  cases hc : c.uid with
  | none => simp [has_any_role, has_role, hc]
  | some u =>
      simp only [has_any_role, has_role, hc, List.any_eq_true,
        Bool.and_eq_true, decide_eq_true_eq]
      constructor
      · rintro ⟨row, hrow, hu, hr⟩
        exact ⟨row.user_role, by simpa using hr, row, hrow, hu, rfl⟩
      · rintro ⟨r, hr, row, hrow, hu, hre⟩
        exact ⟨row, hrow, hu, by simp_all⟩

lemma gate_false (db : DB) (c : Caller) (roles : List SpecialRole)
    (hpg : c.is_postgres = false)
    (h : ∀ r ∈ roles, has_role db c r = false) : gate db c roles = false := by
  simp only [gate, hpg, Bool.or_false]
  rw [Bool.eq_false_iff]
  intro hcon
  obtain ⟨r, hr, hrole⟩ := (has_any_role_iff db c roles).mp hcon
  simp [h r hr] at hrole

end FinanzQuest

namespace FinanzQuest

/-! ## C10: unauthenticated callers hold no role -/

/-- C10: for a caller with no authenticated identity (`auth.uid()` IS NULL),
`users.has_role` returns false for every role and `users.has_any_role`
returns false for every role list, so the authorization gate never treats an
unauthenticated caller as holding a role. -/
theorem unauthenticated_has_no_role (db : DB) (c : Caller) (h : c.uid = none) :
    (∀ r : SpecialRole, has_role db c r = false) ∧
    (∀ rs : List SpecialRole, has_any_role db c rs = false) := by
  refine ⟨fun r => ?_, fun rs => ?_⟩ <;> simp [has_role, has_any_role, h]

theorem unauthenticated_has_no_role_witness :
    (⟨none, false⟩ : Caller).uid = none ∧
    (has_role ⟨[⟨7, true⟩], [⟨7, .admin, 0⟩], [], [], [], [], []⟩
        ⟨none, false⟩ .admin = false ∧
      has_any_role ⟨[⟨7, true⟩], [⟨7, .admin, 0⟩], [], [], [], [], []⟩
        ⟨none, false⟩ [.admin, .teacher] = false) :=
  ⟨rfl,
    (unauthenticated_has_no_role
        ⟨[⟨7, true⟩], [⟨7, .admin, 0⟩], [], [], [], [], []⟩
        ⟨none, false⟩ rfl).1 .admin,
    (unauthenticated_has_no_role
        ⟨[⟨7, true⟩], [⟨7, .admin, 0⟩], [], [], [], [], []⟩
        ⟨none, false⟩ rfl).2 [.admin, .teacher]⟩

/-! ## C3: grantReward / getAdminOverview deny non-privileged callers -/

/-- C3: a caller holding neither the teacher nor the admin role who is not
the bootstrap principal gets the distinct `unauthorized` error from both
`depots.grant_reward` and `users.get_admin_overview` — never a not-found
error — for every database state (so regardless of whether the target depot
exists), and receives no successor state: every depot is left unchanged. -/
theorem non_privileged_grant_reward_admin_overview_unauthorized
    (db : DB) (c : Caller) (p_depot_id : Nat) (p_amount : Int)
    (hpg : c.is_postgres = false)
    (ha : has_role db c .admin = false)
    (ht : has_role db c .teacher = false) :
    grant_reward db c p_depot_id p_amount = .error .unauthorized ∧
    get_admin_overview db c = .error .unauthorized := by
  have hg1 : gate db c [.teacher] = false :=
    gate_false db c _ hpg (by intro r hr; simp at hr; simp [hr, ht])
  have hg2 : gate db c [.admin, .teacher] = false :=
    gate_false db c _ hpg
      (by intro r hr; simp at hr; rcases hr with h | h <;> simp [h, ha, ht])
  exact ⟨by simp [grant_reward, hg1], by simp [get_admin_overview, hg2]⟩

theorem non_privileged_grant_reward_admin_overview_unauthorized_witness :
    ((⟨some 5, false⟩ : Caller).is_postgres = false ∧
      has_role ⟨[], [], [⟨1, 100, 100, [5]⟩], [], [], [], []⟩
        ⟨some 5, false⟩ .admin = false ∧
      has_role ⟨[], [], [⟨1, 100, 100, [5]⟩], [], [], [], []⟩
        ⟨some 5, false⟩ .teacher = false) ∧
    grant_reward ⟨[], [], [⟨1, 100, 100, [5]⟩], [], [], [], []⟩
      ⟨some 5, false⟩ 1 50 = .error .unauthorized ∧
    get_admin_overview ⟨[], [], [⟨1, 100, 100, [5]⟩], [], [], [], []⟩
      ⟨some 5, false⟩ = .error .unauthorized :=
  ⟨⟨rfl, by decide, by decide⟩,
    non_privileged_grant_reward_admin_overview_unauthorized
      ⟨[], [], [⟨1, 100, 100, [5]⟩], [], [], [], []⟩
      ⟨some 5, false⟩ 1 50 rfl (by decide) (by decide)⟩

/-! ## C7: grantTeacher / revokeTeacher deny non-privileged callers -/

/-- C7: a caller holding neither the admin nor the teacher role who is not
the bootstrap principal gets the `unauthorized` error from both
`users.grant_teacher` and `users.revoke_teacher`; since no successor state is
produced, the role-assignment table and every user's elevated flag are left
unchanged. -/
theorem non_privileged_grant_revoke_teacher_unauthorized
    (db : DB) (c : Caller) (p_user_id : Nat) (now : Nat)
    (hpg : c.is_postgres = false)
    (ha : has_role db c .admin = false)
    (ht : has_role db c .teacher = false) :
    grant_teacher db c p_user_id now = .error .unauthorized ∧
    revoke_teacher db c p_user_id = .error .unauthorized := by
  have hg : gate db c [.admin, .teacher] = false :=
    gate_false db c _ hpg
      (by intro r hr; simp at hr; rcases hr with h | h <;> simp [h, ha, ht])
  exact ⟨by simp [grant_teacher, hg], by simp [revoke_teacher, hg]⟩

theorem non_privileged_grant_revoke_teacher_unauthorized_witness :
    ((⟨some 5, false⟩ : Caller).is_postgres = false ∧
      has_role ⟨[⟨5, false⟩, ⟨6, false⟩], [], [], [], [], [], []⟩
        ⟨some 5, false⟩ .admin = false ∧
      has_role ⟨[⟨5, false⟩, ⟨6, false⟩], [], [], [], [], [], []⟩
        ⟨some 5, false⟩ .teacher = false) ∧
    grant_teacher ⟨[⟨5, false⟩, ⟨6, false⟩], [], [], [], [], [], []⟩
      ⟨some 5, false⟩ 6 3 = .error .unauthorized ∧
    revoke_teacher ⟨[⟨5, false⟩, ⟨6, false⟩], [], [], [], [], [], []⟩
      ⟨some 5, false⟩ 6 = .error .unauthorized :=
  ⟨⟨rfl, by decide, by decide⟩,
    non_privileged_grant_revoke_teacher_unauthorized
      ⟨[⟨5, false⟩, ⟨6, false⟩], [], [], [], [], [], []⟩
      ⟨some 5, false⟩ 6 3 rfl (by decide) (by decide)⟩

/-! ## C1: grant_teacher's elevated-flag update is not scoped to the target -/

/-- C1: the code violates the claim.  In a database with auth users 1 and 2
(both with `is_super_admin = false`) where user 1 is an admin, user 1 calling
`grant_teacher(2)` succeeds and sets `is_super_admin = true` on user 1's
record as well as user 2's: the source's
`UPDATE auth.users SET is_super_admin = true` carries no WHERE clause (its
counterpart in `revoke_teacher` has `WHERE id = p_user_id`), so the flag is
flipped on every auth record, not only the target's. -/
theorem grant_teacher_flips_flag_on_every_user :
    (grant_teacher ⟨[⟨1, false⟩, ⟨2, false⟩], [⟨1, .admin, 0⟩], [], [], [], [], []⟩
        ⟨some 1, false⟩ 2 1).map DB.auth_users =
      .ok [⟨1, true⟩, ⟨2, true⟩] := by rfl

/-! ## C2: grant_reward changes cash with no ledger entry -/

/-- C2 counterexample: a depot with `cash = cash_start = 100` and an empty
ledger satisfies the claimed invariant, but after a teacher grants a reward
of 50 the depot's cash is 150 while the ledger still sums to 0, so
`cash = cash_start + Σ(ledger cash deltas)` no longer holds:
`depots.grant_reward` updates cash directly and writes no transaction row. -/
theorem grant_reward_breaks_cash_invariant :
    cash_invariant ⟨[], [⟨9, .teacher, 0⟩], [⟨1, 100, 100, [5]⟩], [], [], [], []⟩ ∧
    grant_reward ⟨[], [⟨9, .teacher, 0⟩], [⟨1, 100, 100, [5]⟩], [], [], [], []⟩
        ⟨some 9, false⟩ 1 50 =
      .ok ⟨[], [⟨9, .teacher, 0⟩], [⟨1, 150, 100, [5]⟩], [], [], [], []⟩ ∧
    ¬ cash_invariant ⟨[], [⟨9, .teacher, 0⟩], [⟨1, 150, 100, [5]⟩], [], [], [], []⟩ := by
  refine ⟨by decide, by rfl, by decide⟩

/-- C2 amended: `grant_reward` leaves the ledger untouched and adds the
amount directly to the target depot's cash, so if the cash invariant held
before a successful `grant_reward`, afterwards every depot's cash equals
`cash_start + Σ(ledger cash deltas)` plus the granted amount if it was the
target: cash drifts from the ledger by exactly the rewards granted. -/
theorem grant_reward_cash_offset (db : DB) (c : Caller) (p_depot_id : Nat)
    (p_amount : Int) (db' : DB)
    (hinv : cash_invariant db)
    (h : grant_reward db c p_depot_id p_amount = .ok db') :
    db'.transactions = db.transactions ∧
    ∀ d' ∈ db'.depots,
      d'.cash = d'.cash_start + ledger_sum db' d'.id +
        (if d'.id = p_depot_id then p_amount else 0) := by
  unfold grant_reward at h
  by_cases hg : gate db c [.teacher] = true
  · simp only [hg, Bool.not_true, Bool.false_eq_true, if_false, Except.ok.injEq] at h
    subst h
    refine ⟨rfl, ?_⟩
    intro d' hd'
    simp only [List.mem_map] at hd'
    obtain ⟨d, hd, rfl⟩ := hd'
    have hbase := hinv d hd
    by_cases hid : d.id = p_depot_id
    · rw [if_pos hid]
      show d.cash + p_amount =
        d.cash_start + ledger_sum db d.id + (if d.id = p_depot_id then p_amount else 0)
      rw [if_pos hid, hbase]
    · rw [if_neg hid]
      show d.cash =
        d.cash_start + ledger_sum db d.id + (if d.id = p_depot_id then p_amount else 0)
      rw [if_neg hid, hbase]
      ring
  · simp only [Bool.not_eq_true] at hg
    simp [hg] at h

theorem grant_reward_cash_offset_witness :
    cash_invariant ⟨[], [⟨9, .teacher, 0⟩], [⟨1, 100, 100, [5]⟩], [], [], [], []⟩ ∧
    grant_reward ⟨[], [⟨9, .teacher, 0⟩], [⟨1, 100, 100, [5]⟩], [], [], [], []⟩
        ⟨some 9, false⟩ 1 50 =
      .ok ⟨[], [⟨9, .teacher, 0⟩], [⟨1, 150, 100, [5]⟩], [], [], [], []⟩ ∧
    ((⟨[], [⟨9, .teacher, 0⟩], [⟨1, 150, 100, [5]⟩], [], [], [], []⟩ : DB).transactions =
        (⟨[], [⟨9, .teacher, 0⟩], [⟨1, 100, 100, [5]⟩], [], [], [], []⟩ : DB).transactions ∧
      ∀ d' ∈ (⟨[], [⟨9, .teacher, 0⟩], [⟨1, 150, 100, [5]⟩], [], [], [], []⟩ : DB).depots,
        d'.cash = d'.cash_start +
          ledger_sum ⟨[], [⟨9, .teacher, 0⟩], [⟨1, 150, 100, [5]⟩], [], [], [], []⟩ d'.id +
          (if d'.id = 1 then 50 else 0)) :=
  ⟨by decide, by rfl,
    grant_reward_cash_offset
      ⟨[], [⟨9, .teacher, 0⟩], [⟨1, 100, 100, [5]⟩], [], [], [], []⟩
      ⟨some 9, false⟩ 1 50
      ⟨[], [⟨9, .teacher, 0⟩], [⟨1, 150, 100, [5]⟩], [], [], [], []⟩
      (by decide) (by rfl)⟩

/-! ## C4: the depot overview denies non-privileged callers entirely -/

/-- C4 counterexample: a caller with uid 5, no special role, who is a member
of depot 1 (`5 ∈ d.users`) does not obtain depot 1's row from
`depots.get_depot_overview`: the function raises `unauthorized` for every
caller outside admin/teacher/postgres, so the claim that a non-privileged
caller receives exactly their own depots' rows fails. -/
theorem depot_overview_denies_member :
    (⟨1, 100, 100, [5]⟩ : Depot).users.contains 5 = true ∧
    get_depot_overview ⟨[⟨5, false⟩], [], [⟨1, 100, 100, [5]⟩], [], [], [], []⟩
      ⟨some 5, false⟩ = .error .unauthorized :=
  ⟨by decide, by rfl⟩

/-- C4 amended: a non-privileged caller (no admin or teacher role, not the
bootstrap principal) always receives `unauthorized` from
`depots.get_depot_overview` and obtains no rows at all — their own depots'
rows included; in particular they never see a row of a depot they do not
belong to. -/
theorem depot_overview_non_privileged_unauthorized
    (db : DB) (c : Caller)
    (hpg : c.is_postgres = false)
    (ha : has_role db c .admin = false)
    (ht : has_role db c .teacher = false) :
    get_depot_overview db c = .error .unauthorized := by
  have hg : gate db c [.admin, .teacher] = false :=
    gate_false db c _ hpg
      (by intro r hr; simp at hr; rcases hr with h | h <;> simp [h, ha, ht])
  simp [get_depot_overview, hg]

theorem depot_overview_non_privileged_unauthorized_witness :
    ((⟨some 5, false⟩ : Caller).is_postgres = false ∧
      has_role ⟨[⟨5, false⟩], [], [⟨1, 100, 100, [5]⟩], [], [], [], []⟩
        ⟨some 5, false⟩ .admin = false ∧
      has_role ⟨[⟨5, false⟩], [], [⟨1, 100, 100, [5]⟩], [], [], [], []⟩
        ⟨some 5, false⟩ .teacher = false) ∧
    get_depot_overview ⟨[⟨5, false⟩], [], [⟨1, 100, 100, [5]⟩], [], [], [], []⟩
      ⟨some 5, false⟩ = .error .unauthorized :=
  ⟨⟨rfl, by decide, by decide⟩,
    depot_overview_non_privileged_unauthorized
      ⟨[⟨5, false⟩], [], [⟨1, 100, 100, [5]⟩], [], [], [], []⟩
      ⟨some 5, false⟩ rfl (by decide) (by decide)⟩

/-! ## C8: change_budget is gated by teacher-only RLS policies -/

/-- C8 counterexample: a caller with uid 7 who holds the admin role (and not
teacher) is denied by `depots.change_budget` — the function body has no role
check and runs under the caller's identity, and the row-level-security
policies on `depots.savings_plans_budget` admit INSERT/UPDATE only for
teachers — so the claim that change_budget succeeds for admin-role callers
fails. -/
theorem change_budget_denies_admin :
    has_role ⟨[], [⟨7, .admin, 0⟩], [⟨1, 100, 100, [5]⟩], [], [], [], [⟨1, 30, 0⟩]⟩
      ⟨some 7, false⟩ .admin = true ∧
    change_budget ⟨[], [⟨7, .admin, 0⟩], [⟨1, 100, 100, [5]⟩], [], [], [], [⟨1, 30, 0⟩]⟩
      ⟨some 7, false⟩ 1 200 5 = .error .rls_denied :=
  ⟨by decide, by rfl⟩

/-- C8 amended: `depots.change_budget` succeeds exactly for callers holding
the teacher role (or the bootstrap principal, which bypasses RLS as table
owner): on success the depot's stored monthly budget reads back as the new
amount whether or not a budget row previously existed, and the depot table
itself is untouched; any other caller — admins without the teacher role
included — is denied by the teacher-only RLS policies and no state change
occurs. -/
lemma find?_map_update (l : List BudgetRow) (p : Nat) (amt : Int) (now : Nat)
    (h : (l.any fun b => b.depot_id = p) = true) :
    ((l.map fun b =>
        if b.depot_id = p then { b with budget := amt, last_changed := now }
        else b).find? fun b => b.depot_id = p).map BudgetRow.budget = some amt := by
  induction l with
  | nil => simp at h
  | cons b l ih =>
      by_cases hb : b.depot_id = p
      · rw [List.map_cons, if_pos hb, List.find?_cons_of_pos _ (by simpa using hb)]
        rfl
      · have h' : (l.any fun b => b.depot_id = p) = true := by
          simpa [List.any_cons, hb] using h
        rw [List.map_cons, if_neg hb, List.find?_cons_of_neg _ (by simpa using hb)]
        exact ih h'

lemma find?_append_new (l : List BudgetRow) (p : Nat) (amt : Int) (now : Nat)
    (h : (l.any fun b => b.depot_id = p) = false) :
    ((l ++ [(⟨p, amt, now⟩ : BudgetRow)]).find? fun b => b.depot_id = p).map
      BudgetRow.budget = some amt := by
  induction l with
  | nil => simp
  | cons b l ih =>
      rw [List.any_cons, Bool.or_eq_false_iff] at h
      rw [List.cons_append,
        List.find?_cons_of_neg _ (by simpa using h.1)]
      exact ih h.2

theorem change_budget_teacher_exactly
    (db : DB) (c : Caller) (p_depot_id : Nat) (p_budget : Int) (now : Nat) :
    ((has_role db c .teacher || c.is_postgres) = true →
      ∃ db', change_budget db c p_depot_id p_budget now = .ok db' ∧
        (db'.savings_plans_budget.find? fun b => b.depot_id = p_depot_id).map
            BudgetRow.budget = some p_budget ∧
        db'.depots = db.depots) ∧
    ((has_role db c .teacher || c.is_postgres) = false →
      change_budget db c p_depot_id p_budget now = .error .rls_denied) := by
  constructor
  · intro hok
    refine ⟨{ db with savings_plans_budget :=
      if db.savings_plans_budget.any fun b => b.depot_id = p_depot_id then
        db.savings_plans_budget.map fun b =>
          if b.depot_id = p_depot_id then
            { b with budget := p_budget, last_changed := now }
          else b
      else db.savings_plans_budget ++
        [(⟨p_depot_id, p_budget, now⟩ : BudgetRow)] }, ?_, ?_, rfl⟩
    · unfold change_budget
      rw [if_pos hok]
    · show (((if db.savings_plans_budget.any fun b => b.depot_id = p_depot_id then
          db.savings_plans_budget.map fun b =>
            if b.depot_id = p_depot_id then
              { b with budget := p_budget, last_changed := now }
            else b
        else db.savings_plans_budget ++
          [(⟨p_depot_id, p_budget, now⟩ : BudgetRow)]).find?
          fun b => b.depot_id = p_depot_id).map BudgetRow.budget) = some p_budget
      by_cases hex :
          (db.savings_plans_budget.any fun b => b.depot_id = p_depot_id) = true
      · rw [if_pos hex]
        exact find?_map_update _ _ _ _ hex
      · rw [if_neg (by simpa using hex)]
        exact find?_append_new _ _ _ _ (by simpa using hex)
  · intro hko
    unfold change_budget
    rw [if_neg (by simp [hko])]

theorem change_budget_teacher_exactly_witness :
    ((has_role ⟨[], [⟨3, .teacher, 0⟩], [], [], [], [], []⟩
        ⟨some 3, false⟩ .teacher || (⟨some 3, false⟩ : Caller).is_postgres) = true ∧
      ∃ db', change_budget ⟨[], [⟨3, .teacher, 0⟩], [], [], [], [], []⟩
          ⟨some 3, false⟩ 1 200 5 = .ok db' ∧
        (db'.savings_plans_budget.find? fun b => b.depot_id = 1).map
            BudgetRow.budget = some 200 ∧
        db'.depots = (⟨[], [⟨3, .teacher, 0⟩], [], [], [], [], []⟩ : DB).depots) ∧
    ((has_role ⟨[], [⟨4, .admin, 0⟩], [], [], [], [], []⟩
        ⟨some 4, false⟩ .teacher || (⟨some 4, false⟩ : Caller).is_postgres) = false ∧
      change_budget ⟨[], [⟨4, .admin, 0⟩], [], [], [], [], []⟩
        ⟨some 4, false⟩ 1 200 5 = .error .rls_denied) :=
  ⟨⟨by decide,
      (change_budget_teacher_exactly ⟨[], [⟨3, .teacher, 0⟩], [], [], [], [], []⟩
        ⟨some 3, false⟩ 1 200 5).1 (by decide)⟩,
    ⟨by decide,
      (change_budget_teacher_exactly ⟨[], [⟨4, .admin, 0⟩], [], [], [], [], []⟩
        ⟨some 4, false⟩ 1 200 5).2 (by decide)⟩⟩

/-! ## C5: remaining_budget in the savings-plan budget overview -/

/-- C5 counterexample: for a depot with monthly budget 250 and no savings
plan, the view reports `remaining_budget` as NULL — the SQL `SUM` over the
LEFT JOIN's null row is NULL and `budget - NULL` is NULL — whereas the claim
as stated (remaining = budget minus the sum over the depot's plans,
universally) would give `250 - 0 = 250`. -/
theorem budget_overview_no_plan_remaining_not_budget :
    (savings_plans_budget_overview
        ⟨[], [], [⟨1, 100, 100, [5]⟩], [], [], [], [⟨1, 250, 0⟩]⟩).map
      BudgetOverviewRow.remaining_budget = [none] ∧
    (none : Option ℚ) ≠ some ((250 : ℚ) - 0) := by
  refine ⟨by rfl, by simp⟩

/-- C5 amended: for every depot with a monthly budget row and at least one
savings plan, the budget overview row for that depot reports
`remaining_budget = budget − Σ(worth × sp_to_per_month(period))` over the
depot's plans (with the spec's normalization factors weekly×4.345,
biweekly×2.17, monthly×1, quarterly×1/3, yearly×1/12); depots with no plan
report NULL instead.  In particular a depot with budget 250 and a single
monthly plan of worth 100 reports remaining_budget 150 (see the witness). -/
theorem budget_overview_remaining_eq
    (db : DB) (b : BudgetRow)
    (hb : b ∈ db.savings_plans_budget)
    (hne : (db.savings_plans.filter fun p => p.depot_id = b.depot_id) ≠ []) :
    ∃ row ∈ savings_plans_budget_overview db,
      row.depot_id = b.depot_id ∧ row.budget = b.budget ∧
      row.remaining_budget = some ((b.budget : ℚ) -
        (((db.savings_plans.filter fun p => p.depot_id = b.depot_id)).map
          fun p => p.worth * sp_to_per_month p.period).sum) := by
  refine ⟨_, List.mem_map_of_mem _ hb, rfl, rfl, ?_⟩
  have hxs : ((db.savings_plans.filter fun p => p.depot_id = b.depot_id).map
      fun p => p.worth * sp_to_per_month p.period) ≠ [] :=
    fun hcon => hne (List.map_eq_nil_iff.mp hcon)
  show (sqlSum _).map _ = _
  rw [sqlSum, if_neg (by simpa [List.isEmpty_iff] using hxs)]
  rfl

theorem budget_overview_remaining_eq_witness :
    ((⟨1, 250, 0⟩ : BudgetRow) ∈
        (⟨[], [], [⟨1, 100, 100, [5]⟩], [], [], [⟨10, 1, 100, .monthly⟩],
          [⟨1, 250, 0⟩]⟩ : DB).savings_plans_budget ∧
      ((⟨[], [], [⟨1, 100, 100, [5]⟩], [], [], [⟨10, 1, 100, .monthly⟩],
          [⟨1, 250, 0⟩]⟩ : DB).savings_plans.filter
        fun p => p.depot_id = (⟨1, 250, 0⟩ : BudgetRow).depot_id) ≠ []) ∧
    (∃ row ∈ savings_plans_budget_overview
        ⟨[], [], [⟨1, 100, 100, [5]⟩], [], [], [⟨10, 1, 100, .monthly⟩],
          [⟨1, 250, 0⟩]⟩,
      row.depot_id = (⟨1, 250, 0⟩ : BudgetRow).depot_id ∧
      row.budget = (⟨1, 250, 0⟩ : BudgetRow).budget ∧
      row.remaining_budget = some (((⟨1, 250, 0⟩ : BudgetRow).budget : ℚ) -
        (((⟨[], [], [⟨1, 100, 100, [5]⟩], [], [], [⟨10, 1, 100, .monthly⟩],
            [⟨1, 250, 0⟩]⟩ : DB).savings_plans.filter
          fun p => p.depot_id = (⟨1, 250, 0⟩ : BudgetRow).depot_id).map
          fun p => p.worth * sp_to_per_month p.period).sum)) ∧
    (savings_plans_budget_overview
        ⟨[], [], [⟨1, 100, 100, [5]⟩], [], [], [⟨10, 1, 100, .monthly⟩],
          [⟨1, 250, 0⟩]⟩).map BudgetOverviewRow.remaining_budget =
      [some (150 : ℚ)] :=
  ⟨⟨by decide, by simp⟩,
    budget_overview_remaining_eq
      ⟨[], [], [⟨1, 100, 100, [5]⟩], [], [], [⟨10, 1, 100, .monthly⟩],
        [⟨1, 250, 0⟩]⟩ ⟨1, 250, 0⟩ (by decide) (by simp),
    by norm_num [savings_plans_budget_overview, sqlSum, sp_to_per_month]⟩

/-! ## C9: a budget row with no savings plans reports NULL, not 0 -/

/-- C9: for every depot that has a budget row but no savings plan, the
budget overview reports both `monthly_expenses` and `remaining_budget` as
NULL (absent) — the SQL SUM over the LEFT JOIN's all-NULL group is NULL and
NULL propagates through `budget - SUM(...)` — not as 0 and the full budget. -/
theorem budget_overview_no_plans_null
    (db : DB) (b : BudgetRow)
    (hb : b ∈ db.savings_plans_budget)
    (hnil : (db.savings_plans.filter fun p => p.depot_id = b.depot_id) = []) :
    ∃ row ∈ savings_plans_budget_overview db,
      row.depot_id = b.depot_id ∧ row.budget = b.budget ∧
      row.monthly_expenses = none ∧ row.remaining_budget = none := by
  refine ⟨_, List.mem_map_of_mem _ hb, rfl, rfl, ?_, ?_⟩ <;>
    simp [savings_plans_budget_overview, sqlSum, hnil]

theorem budget_overview_no_plans_null_witness :
    ((⟨2, 250, 0⟩ : BudgetRow) ∈
        (⟨[], [], [⟨2, 100, 100, [5]⟩], [], [], [], [⟨2, 250, 0⟩]⟩ : DB).savings_plans_budget ∧
      ((⟨[], [], [⟨2, 100, 100, [5]⟩], [], [], [], [⟨2, 250, 0⟩]⟩ : DB).savings_plans.filter
        fun p => p.depot_id = (⟨2, 250, 0⟩ : BudgetRow).depot_id) = []) ∧
    ∃ row ∈ savings_plans_budget_overview
        ⟨[], [], [⟨2, 100, 100, [5]⟩], [], [], [], [⟨2, 250, 0⟩]⟩,
      row.depot_id = (⟨2, 250, 0⟩ : BudgetRow).depot_id ∧
      row.budget = (⟨2, 250, 0⟩ : BudgetRow).budget ∧
      row.monthly_expenses = none ∧ row.remaining_budget = none :=
  ⟨⟨by decide, by simp⟩,
    budget_overview_no_plans_null
      ⟨[], [], [⟨2, 100, 100, [5]⟩], [], [], [], [⟨2, 250, 0⟩]⟩
      ⟨2, 250, 0⟩ (by decide) (by simp)⟩

/-! ## C6: COUNT(DISTINCT ...) in the two overviews counts exact rows -/

lemma exists_mem_leftJoin {α : Type} (l : List α) : ∃ o, o ∈ leftJoin l := by
  unfold leftJoin
  cases l with
  | nil => exact ⟨none, by simp⟩
  | cons a l => exact ⟨some a, by simp⟩

lemma mem_leftJoin_some {α : Type} {l : List α} {a : α} :
    some a ∈ leftJoin l ↔ a ∈ l := by
  unfold leftJoin
  by_cases h : l.isEmpty
  · rw [if_pos h, List.isEmpty_iff.mp h]
    simp
  · rw [if_neg h]
    simp

lemma countDistinct_spec {β : Type} (rows : List β) (g : β → Option Nat)
    (l : List Nat) (hnd : l.Nodup)
    (h : ∀ x, (∃ r ∈ rows, g r = some x) ↔ x ∈ l) :
    countDistinct (rows.map g) = l.length := by
  rw [countDistinct, ← List.toFinset_card_of_nodup hnd]
  congr 1
  ext x
  simp only [List.mem_toFinset, List.mem_filterMap, List.mem_map, id]
  constructor
  · rintro ⟨o, ⟨r, hr, rfl⟩, ho⟩
    exact (h x).mp ⟨r, hr, ho⟩
  · intro hx
    obtain ⟨r, hr, hg⟩ := (h x).mpr hx
    exact ⟨some x, ⟨r, hr, hg⟩, rfl⟩

lemma adminJoinRows_depot_ids (db : DB) (uid x : Nat) :
    (∃ r ∈ adminJoinRows db uid, r.1.map Depot.id = some x) ↔
      ∃ d ∈ db.depots.filter (fun d => d.users.contains uid), d.id = x := by
  unfold adminJoinRows
  constructor
  · rintro ⟨r, hr, hx⟩
    rw [List.mem_flatMap] at hr
    obtain ⟨od, hod, hrF⟩ := hr
    cases od with
    | none =>
        simp only [List.mem_singleton] at hrF
        subst hrF
        simp at hx
    | some d =>
        have hd : d ∈ db.depots.filter fun d => d.users.contains uid :=
          mem_leftJoin_some.mp hod
        simp only [List.mem_flatMap, List.mem_map] at hrF
        obtain ⟨op, hop, ot, hot, rfl⟩ := hrF
        simp only [Option.map_some', Option.some.injEq] at hx
        exact ⟨d, hd, hx⟩
  · rintro ⟨d, hd, rfl⟩
    obtain ⟨op, hop⟩ :=
      exists_mem_leftJoin (db.positions.filter fun p => p.depot_id = d.id)
    obtain ⟨ot, hot⟩ :=
      exists_mem_leftJoin (db.transactions.filter fun t => t.depot_id = d.id)
    refine ⟨(some d, op, ot), ?_, rfl⟩
    rw [List.mem_flatMap]
    refine ⟨some d, mem_leftJoin_some.mpr hd, ?_⟩
    simp only [List.mem_flatMap, List.mem_map]
    exact ⟨op, hop, ot, hot, rfl⟩

lemma adminJoinRows_position_ids (db : DB) (uid x : Nat) :
    (∃ r ∈ adminJoinRows db uid, r.2.1.map Position.id = some x) ↔
      ∃ p ∈ db.positions.filter (fun p =>
          (db.depots.filter fun d => d.users.contains uid).any fun d =>
            p.depot_id = d.id),
        p.id = x := by
  unfold adminJoinRows
  constructor
  · rintro ⟨r, hr, hx⟩
    rw [List.mem_flatMap] at hr
    obtain ⟨od, hod, hrF⟩ := hr
    cases od with
    | none =>
        simp only [List.mem_singleton] at hrF
        subst hrF
        simp at hx
    | some d =>
        have hd : d ∈ db.depots.filter fun d => d.users.contains uid :=
          mem_leftJoin_some.mp hod
        simp only [List.mem_flatMap, List.mem_map] at hrF
        obtain ⟨op, hop, ot, hot, rfl⟩ := hrF
        cases op with
        | none => simp at hx
        | some p =>
            simp only [Option.map_some', Option.some.injEq] at hx
            have hp : p ∈ db.positions.filter fun p => p.depot_id = d.id :=
              mem_leftJoin_some.mp hop
            rw [List.mem_filter] at hp
            refine ⟨p, List.mem_filter.mpr ⟨hp.1, ?_⟩, hx⟩
            rw [List.any_eq_true]
            exact ⟨d, hd, hp.2⟩
  · rintro ⟨p, hp, rfl⟩
    rw [List.mem_filter, List.any_eq_true] at hp
    obtain ⟨hpmem, d, hd, hpd⟩ := hp
    obtain ⟨ot, hot⟩ :=
      exists_mem_leftJoin (db.transactions.filter fun t => t.depot_id = d.id)
    refine ⟨(some d, some p, ot), ?_, rfl⟩
    rw [List.mem_flatMap]
    refine ⟨some d, mem_leftJoin_some.mpr hd, ?_⟩
    simp only [List.mem_flatMap, List.mem_map]
    refine ⟨some p, mem_leftJoin_some.mpr (List.mem_filter.mpr ⟨hpmem, hpd⟩),
      ot, hot, rfl⟩

lemma adminJoinRows_transaction_ids (db : DB) (uid x : Nat) :
    (∃ r ∈ adminJoinRows db uid, r.2.2.map Transaction.id = some x) ↔
      ∃ t ∈ db.transactions.filter (fun t =>
          (db.depots.filter fun d => d.users.contains uid).any fun d =>
            t.depot_id = d.id),
        t.id = x := by
  unfold adminJoinRows
  constructor
  · rintro ⟨r, hr, hx⟩
    rw [List.mem_flatMap] at hr
    obtain ⟨od, hod, hrF⟩ := hr
    cases od with
    | none =>
        simp only [List.mem_singleton] at hrF
        subst hrF
        simp at hx
    | some d =>
        have hd : d ∈ db.depots.filter fun d => d.users.contains uid :=
          mem_leftJoin_some.mp hod
        simp only [List.mem_flatMap, List.mem_map] at hrF
        obtain ⟨op, hop, ot, hot, rfl⟩ := hrF
        cases ot with
        | none => simp at hx
        | some t =>
            simp only [Option.map_some', Option.some.injEq] at hx
            have ht : t ∈ db.transactions.filter fun t => t.depot_id = d.id :=
              mem_leftJoin_some.mp hot
            rw [List.mem_filter] at ht
            refine ⟨t, List.mem_filter.mpr ⟨ht.1, ?_⟩, hx⟩
            rw [List.any_eq_true]
            exact ⟨d, hd, ht.2⟩
  · rintro ⟨t, ht, rfl⟩
    rw [List.mem_filter, List.any_eq_true] at ht
    obtain ⟨htmem, d, hd, htd⟩ := ht
    obtain ⟨op, hop⟩ :=
      exists_mem_leftJoin (db.positions.filter fun p => p.depot_id = d.id)
    refine ⟨(some d, op, some t), ?_, rfl⟩
    rw [List.mem_flatMap]
    refine ⟨some d, mem_leftJoin_some.mpr hd, ?_⟩
    simp only [List.mem_flatMap, List.mem_map]
    refine ⟨op, hop, some t,
      mem_leftJoin_some.mpr (List.mem_filter.mpr ⟨htmem, htd⟩), rfl⟩

lemma depotJoinRows_transaction_ids (db : DB) (did x : Nat) :
    (∃ r ∈ depotJoinRows db did, r.1.map Transaction.id = some x) ↔
      ∃ t ∈ db.transactions.filter (fun t => t.depot_id = did), t.id = x := by
  unfold depotJoinRows
  constructor
  · rintro ⟨r, hr, hx⟩
    rw [List.mem_flatMap] at hr
    obtain ⟨ot, hot, hrF⟩ := hr
    simp only [List.mem_map] at hrF
    obtain ⟨op, hop, rfl⟩ := hrF
    cases ot with
    | none => simp at hx
    | some t =>
        simp only [Option.map_some', Option.some.injEq] at hx
        exact ⟨t, mem_leftJoin_some.mp hot, hx⟩
  · rintro ⟨t, ht, rfl⟩
    obtain ⟨op, hop⟩ :=
      exists_mem_leftJoin (db.positions.filter fun p => p.depot_id = did)
    refine ⟨(some t, op), ?_, rfl⟩
    rw [List.mem_flatMap]
    refine ⟨some t, mem_leftJoin_some.mpr ht, ?_⟩
    simp only [List.mem_map]
    exact ⟨op, hop, rfl⟩

lemma depotJoinRows_position_ids (db : DB) (did x : Nat) :
    (∃ r ∈ depotJoinRows db did, r.2.map Position.id = some x) ↔
      ∃ p ∈ db.positions.filter (fun p => p.depot_id = did), p.id = x := by
  unfold depotJoinRows
  constructor
  · rintro ⟨r, hr, hx⟩
    rw [List.mem_flatMap] at hr
    obtain ⟨ot, hot, hrF⟩ := hr
    simp only [List.mem_map] at hrF
    obtain ⟨op, hop, rfl⟩ := hrF
    cases op with
    | none => simp at hx
    | some p =>
        simp only [Option.map_some', Option.some.injEq] at hx
        exact ⟨p, mem_leftJoin_some.mp hop, hx⟩
  · rintro ⟨p, hp, rfl⟩
    obtain ⟨ot, hot⟩ :=
      exists_mem_leftJoin (db.transactions.filter fun t => t.depot_id = did)
    refine ⟨(ot, some p), ?_, rfl⟩
    rw [List.mem_flatMap]
    refine ⟨ot, hot, ?_⟩
    simp only [List.mem_map]
    exact ⟨some p, mem_leftJoin_some.mpr hp, rfl⟩

lemma filter_map_id_nodup {α : Type} (l : List α) (f : α → Nat) (φ : α → Bool)
    (h : (l.map f).Nodup) : ((l.filter φ).map f).Nodup :=
  h.sublist ((List.filter_sublist l).map f)

lemma exists_eq_mem_map_iff {α : Type} (l : List α) (f : α → Nat) (x : Nat) :
    (∃ a ∈ l, f a = x) ↔ x ∈ l.map f := by
  rw [List.mem_map]

lemma admin_depot_count (db : DB) (uid : Nat)
    (hd : (db.depots.map Depot.id).Nodup) :
    countDistinct ((adminJoinRows db uid).map fun r => r.1.map Depot.id) =
      (db.depots.filter fun d => d.users.contains uid).length := by
  have hnd := filter_map_id_nodup db.depots Depot.id
    (fun d => d.users.contains uid) hd
  rw [countDistinct_spec _ _ _ hnd
    (fun x => (adminJoinRows_depot_ids db uid x).trans
      (exists_eq_mem_map_iff _ Depot.id x)), List.length_map]

lemma admin_position_count (db : DB) (uid : Nat)
    (hp : (db.positions.map Position.id).Nodup) :
    countDistinct ((adminJoinRows db uid).map fun r => r.2.1.map Position.id) =
      (db.positions.filter fun p =>
        (db.depots.filter fun d => d.users.contains uid).any fun d =>
          p.depot_id = d.id).length := by
  have hnd := filter_map_id_nodup db.positions Position.id
    (fun p => (db.depots.filter fun d => d.users.contains uid).any fun d =>
      p.depot_id = d.id) hp
  rw [countDistinct_spec _ _ _ hnd
    (fun x => (adminJoinRows_position_ids db uid x).trans
      (exists_eq_mem_map_iff _ Position.id x)), List.length_map]

lemma admin_transaction_count (db : DB) (uid : Nat)
    (ht : (db.transactions.map Transaction.id).Nodup) :
    countDistinct ((adminJoinRows db uid).map fun r => r.2.2.map Transaction.id) =
      (db.transactions.filter fun t =>
        (db.depots.filter fun d => d.users.contains uid).any fun d =>
          t.depot_id = d.id).length := by
  have hnd := filter_map_id_nodup db.transactions Transaction.id
    (fun t => (db.depots.filter fun d => d.users.contains uid).any fun d =>
      t.depot_id = d.id) ht
  rw [countDistinct_spec _ _ _ hnd
    (fun x => (adminJoinRows_transaction_ids db uid x).trans
      (exists_eq_mem_map_iff _ Transaction.id x)), List.length_map]

lemma depot_transaction_count (db : DB) (did : Nat)
    (ht : (db.transactions.map Transaction.id).Nodup) :
    countDistinct ((depotJoinRows db did).map fun r => r.1.map Transaction.id) =
      (db.transactions.filter fun t => t.depot_id = did).length := by
  have hnd := filter_map_id_nodup db.transactions Transaction.id
    (fun t => t.depot_id = did) ht
  rw [countDistinct_spec _ _ _ hnd
    (fun x => (depotJoinRows_transaction_ids db did x).trans
      (exists_eq_mem_map_iff _ Transaction.id x)), List.length_map]

lemma depot_position_count (db : DB) (did : Nat)
    (hp : (db.positions.map Position.id).Nodup) :
    countDistinct ((depotJoinRows db did).map fun r => r.2.map Position.id) =
      (db.positions.filter fun p => p.depot_id = did).length := by
  have hnd := filter_map_id_nodup db.positions Position.id
    (fun p => p.depot_id = did) hp
  rw [countDistinct_spec _ _ _ hnd
    (fun x => (depotJoinRows_position_ids db did x).trans
      (exists_eq_mem_map_iff _ Position.id x)), List.length_map]

/-- C6: assuming the primary keys hold (distinct depot ids, position ids and
transaction ids), every row of `users.get_admin_overview` reports
`depot_count` equal to the exact number of depots the row's user belongs to
and `position_count` / `transaction_count` equal to the exact number of
positions / transactions of those depots, and every row of
`depots.get_depot_overview` reports `transaction_count` / `position_count`
equal to the exact number of transactions / positions of that depot: the
`COUNT(DISTINCT id)` aggregates collapse the row multiplication of the
chained LEFT JOINs. -/
theorem overview_counts_exact (db : DB) (c : Caller)
    (hd : (db.depots.map Depot.id).Nodup)
    (hp : (db.positions.map Position.id).Nodup)
    (htx : (db.transactions.map Transaction.id).Nodup)
    (rows_a : List AdminOverviewRow) (rows_d : List DepotOverviewRow)
    (ha : get_admin_overview db c = .ok rows_a)
    (hb : get_depot_overview db c = .ok rows_d) :
    (∀ row ∈ rows_a,
      row.depot_count =
        (db.depots.filter fun d => d.users.contains row.id).length ∧
      row.position_count = (db.positions.filter fun p =>
        (db.depots.filter fun d => d.users.contains row.id).any fun d =>
          p.depot_id = d.id).length ∧
      row.transaction_count = (db.transactions.filter fun t =>
        (db.depots.filter fun d => d.users.contains row.id).any fun d =>
          t.depot_id = d.id).length) ∧
    (∀ row ∈ rows_d,
      row.transaction_count =
        (db.transactions.filter fun t => t.depot_id = row.id).length ∧
      row.position_count =
        (db.positions.filter fun p => p.depot_id = row.id).length) := by
  by_cases hg : gate db c [.admin, .teacher] = true
  · unfold get_admin_overview at ha
    unfold get_depot_overview at hb
    rw [hg] at ha hb
    simp only [Bool.not_true, Bool.false_eq_true, if_false, Except.ok.injEq] at ha hb
    subst ha
    subst hb
    constructor
    · intro row hrow
      rw [List.mem_map] at hrow
      obtain ⟨au, hau, rfl⟩ := hrow
      exact ⟨admin_depot_count db au.id hd, admin_position_count db au.id hp,
        admin_transaction_count db au.id htx⟩
    · intro row hrow
      rw [List.mem_map] at hrow
      obtain ⟨d, hdm, rfl⟩ := hrow
      exact ⟨depot_transaction_count db d.id htx, depot_position_count db d.id hp⟩
  · unfold get_admin_overview at ha
    rw [Bool.not_eq_true] at hg
    rw [hg] at ha
    simp at ha

theorem overview_counts_exact_witness :
    (((⟨[⟨5, false⟩, ⟨9, false⟩], [⟨9, .teacher, 0⟩], [⟨1, 100, 100, [5]⟩],
        [⟨11, 1⟩], [⟨21, 1, 0⟩], [], []⟩ : DB).depots.map Depot.id).Nodup ∧
      ((⟨[⟨5, false⟩, ⟨9, false⟩], [⟨9, .teacher, 0⟩], [⟨1, 100, 100, [5]⟩],
        [⟨11, 1⟩], [⟨21, 1, 0⟩], [], []⟩ : DB).positions.map Position.id).Nodup ∧
      ((⟨[⟨5, false⟩, ⟨9, false⟩], [⟨9, .teacher, 0⟩], [⟨1, 100, 100, [5]⟩],
        [⟨11, 1⟩], [⟨21, 1, 0⟩], [], []⟩ : DB).transactions.map Transaction.id).Nodup ∧
      get_admin_overview ⟨[⟨5, false⟩, ⟨9, false⟩], [⟨9, .teacher, 0⟩], [⟨1, 100, 100, [5]⟩],
        [⟨11, 1⟩], [⟨21, 1, 0⟩], [], []⟩
        ⟨some 9, false⟩ = .ok [⟨5, none, 1, 1, 1⟩, ⟨9, some [.teacher], 0, 0, 0⟩] ∧
      get_depot_overview ⟨[⟨5, false⟩, ⟨9, false⟩], [⟨9, .teacher, 0⟩], [⟨1, 100, 100, [5]⟩],
        [⟨11, 1⟩], [⟨21, 1, 0⟩], [], []⟩
        ⟨some 9, false⟩ = .ok [⟨1, 100, 100, 1, 1, [5], [5], none⟩]) ∧
    (∀ row ∈ ([⟨5, none, 1, 1, 1⟩, ⟨9, some [.teacher], 0, 0, 0⟩] : List AdminOverviewRow),
      row.depot_count =
        ((⟨[⟨5, false⟩, ⟨9, false⟩], [⟨9, .teacher, 0⟩], [⟨1, 100, 100, [5]⟩],
        [⟨11, 1⟩], [⟨21, 1, 0⟩], [], []⟩ : DB).depots.filter fun d => d.users.contains row.id).length ∧
      row.position_count = ((⟨[⟨5, false⟩, ⟨9, false⟩], [⟨9, .teacher, 0⟩], [⟨1, 100, 100, [5]⟩],
        [⟨11, 1⟩], [⟨21, 1, 0⟩], [], []⟩ : DB).positions.filter fun p =>
        ((⟨[⟨5, false⟩, ⟨9, false⟩], [⟨9, .teacher, 0⟩], [⟨1, 100, 100, [5]⟩],
        [⟨11, 1⟩], [⟨21, 1, 0⟩], [], []⟩ : DB).depots.filter fun d => d.users.contains row.id).any fun d =>
          p.depot_id = d.id).length ∧
      row.transaction_count = ((⟨[⟨5, false⟩, ⟨9, false⟩], [⟨9, .teacher, 0⟩], [⟨1, 100, 100, [5]⟩],
        [⟨11, 1⟩], [⟨21, 1, 0⟩], [], []⟩ : DB).transactions.filter fun t =>
        ((⟨[⟨5, false⟩, ⟨9, false⟩], [⟨9, .teacher, 0⟩], [⟨1, 100, 100, [5]⟩],
        [⟨11, 1⟩], [⟨21, 1, 0⟩], [], []⟩ : DB).depots.filter fun d => d.users.contains row.id).any fun d =>
          t.depot_id = d.id).length) ∧
    (∀ row ∈ ([⟨1, 100, 100, 1, 1, [5], [5], none⟩] : List DepotOverviewRow),
      row.transaction_count =
        ((⟨[⟨5, false⟩, ⟨9, false⟩], [⟨9, .teacher, 0⟩], [⟨1, 100, 100, [5]⟩],
        [⟨11, 1⟩], [⟨21, 1, 0⟩], [], []⟩ : DB).transactions.filter fun t => t.depot_id = row.id).length ∧
      row.position_count =
        ((⟨[⟨5, false⟩, ⟨9, false⟩], [⟨9, .teacher, 0⟩], [⟨1, 100, 100, [5]⟩],
        [⟨11, 1⟩], [⟨21, 1, 0⟩], [], []⟩ : DB).positions.filter fun p => p.depot_id = row.id).length) :=
  ⟨⟨by decide, by decide, by decide, by rfl, by rfl⟩,
    (overview_counts_exact ⟨[⟨5, false⟩, ⟨9, false⟩], [⟨9, .teacher, 0⟩], [⟨1, 100, 100, [5]⟩],
        [⟨11, 1⟩], [⟨21, 1, 0⟩], [], []⟩
      ⟨some 9, false⟩ (by decide) (by decide) (by decide)
      [⟨5, none, 1, 1, 1⟩, ⟨9, some [.teacher], 0, 0, 0⟩]
      [⟨1, 100, 100, 1, 1, [5], [5], none⟩]
      (by rfl) (by rfl)).1,
    (overview_counts_exact ⟨[⟨5, false⟩, ⟨9, false⟩], [⟨9, .teacher, 0⟩], [⟨1, 100, 100, [5]⟩],
        [⟨11, 1⟩], [⟨21, 1, 0⟩], [], []⟩
      ⟨some 9, false⟩ (by decide) (by decide) (by decide)
      [⟨5, none, 1, 1, 1⟩, ⟨9, some [.teacher], 0, 0, 0⟩]
      [⟨1, 100, 100, 1, 1, [5], [5], none⟩]
      (by rfl) (by rfl)).2⟩

end FinanzQuest
